import Mathlib

/-!
# Verification of `parse_tcx.py` (Coxswain2Fit)

A shallow embedding of the TCX parsing and device-alignment program
`src/parse_tcx.py`.  XML documents are modelled as a tree of elements; the
Python dicts built by the extractors are modelled as association lists in
insertion order; Python exceptions are modelled with `Except` over an error
type following the spec's error taxonomy (the concrete Python exception
classes `AttributeError`/`KeyError`/`TypeError`/`IndexError`/`ValueError`
raised by the source are mapped to the taxonomy names the spec assigns to
those failure sites).  Timestamps are represented as integer seconds of the
local clock: no claim depends on the textual timestamp format or on the
timezone arithmetic performed by `convert_local`, so the timestamp text in
the model is the integer second count itself.
-/

mutual
/-- An XML element as seen through lxml: a (namespace-qualified) tag,
attributes, optional text, and child elements in document order.  The child
sequence is its own inductive (`ElementList`, isomorphic to `List Element`)
so that recursion over the tree is structural. -/
inductive Element : Type where
  | mk (tag : String) (attrib : List (String × String)) (text : Option String)
       (children : ElementList)
/-- A sequence of sibling elements (see `Element`). -/
inductive ElementList : Type where
  | nil
  | cons (e : Element) (es : ElementList)
end

def ElementList.toList : ElementList → List Element
  | .nil => []
  | .cons e es => e :: es.toList

def ElementList.ofList : List Element → ElementList
  | [] => .nil
  | e :: es => .cons e (ElementList.ofList es)

/-- Build an element from a plain list of children. -/
def mkE (tag : String) (attrib : List (String × String)) (text : Option String)
    (children : List Element) : Element :=
  .mk tag attrib text (ElementList.ofList children)

def Element.tag : Element → String
  | .mk t _ _ _ => t

def Element.attrib : Element → List (String × String)
  | .mk _ a _ _ => a

def Element.text : Element → Option String
  | .mk _ _ x _ => x

def Element.childNodes : Element → ElementList
  | .mk _ _ _ c => c

def Element.children (e : Element) : List Element :=
  e.childNodes.toList

/-- `e.find(tag)` with a relative path: first direct child with the tag. -/
def findChild (e : Element) (tag : String) : Option Element :=
  e.children.find? (fun c => c.tag == tag)

/-- `e.findall(tag)` with a relative path: all direct children with the tag. -/
def findallChildren (e : Element) (tag : String) : List Element :=
  e.children.filter (fun c => c.tag == tag)

mutual
/-- First element with the given tag in the subtree rooted at `e` (`e`
itself included), in document order. -/
def findDescE (tag : String) : Element → Option Element
  | .mk t a x ch =>
    if t == tag then some (.mk t a x ch) else findDescL tag ch

/-- First element with the given tag among the subtrees of the elements of
the list, in document order (an element precedes its own subtree). -/
def findDescL (tag : String) : ElementList → Option Element
  | .nil => none
  | .cons e es =>
    match findDescE tag e with
    | some r => some r
    | none => findDescL tag es
end

/-- `e.find('.//' + tag)`: first descendant (self excluded) with the tag,
in document order. -/
def Element.findRec (e : Element) (tag : String) : Option Element :=
  findDescL tag e.childNodes

/-- Value of a digit string. -/
def digitsVal (cs : List Char) : Nat :=
  cs.foldl (fun a c => a * 10 + (c.toNat - 48)) 0

/-- A Python float as the program uses it: the program never computes with
float-typed fields (they are extracted, tabulated and written out), so a
float is carried as the exact decimal it was parsed from — an integer
mantissa and a power-of-ten scale, denoting `mant / 10 ^ scale`. -/
structure PyFloat where
  mant : Int
  scale : Nat
deriving DecidableEq

/-- The rational value a `PyFloat` denotes. -/
def PyFloat.toRat (x : PyFloat) : ℚ := (x.mant : ℚ) / (10 : ℚ) ^ x.scale

/-- Unsigned decimal literal: `digits`, `digits.digits`, `digits.` or
`.digits`; anything else (in particular the empty string) is rejected. -/
def decimalCore (cs : List Char) : Option PyFloat :=
  let ip := cs.takeWhile Char.isDigit
  let rest := cs.dropWhile Char.isDigit
  match rest with
  | [] => if ip.isEmpty then none else some ⟨(digitsVal ip : Int), 0⟩
  | '.' :: fp =>
    if fp.all Char.isDigit && !(ip.isEmpty && fp.isEmpty) then
      some ⟨((digitsVal ip * 10 ^ fp.length + digitsVal fp : Nat) : Int), fp.length⟩
    else none
  | _ => none

/-- Strip one leading sign; returns (negative?, remainder). -/
def signSplit : List Char → Bool × List Char
  | '-' :: r => (true, r)
  | '+' :: r => (false, r)
  | cs => (false, cs)

/-- Surrounding whitespace, which Python's numeric constructors ignore. -/
def stripChars (cs : List Char) : List Char :=
  ((cs.dropWhile Char.isWhitespace).reverse.dropWhile Char.isWhitespace).reverse

/-- Model of Python `float(s)` restricted to plain decimal literals with
optional sign and surrounding whitespace (exponents and `inf`/`nan`, which
the program's data never uses, are not modelled).  Notably `float("")` and
`float(" ")` raise in Python and are `none` here. -/
def pyFloat (s : String) : Option PyFloat :=
  let p := signSplit (stripChars s.data)
  (decimalCore p.2).map (fun q => if p.1 then ⟨-q.mant, q.scale⟩ else q)

/-- Model of Python `int(s)`: optional sign, then digits only. -/
def pyInt (s : String) : Option Int :=
  let p := signSplit (stripChars s.data)
  if p.2.isEmpty || !(p.2.all Char.isDigit) then none
  else if p.1 then some (-(digitsVal p.2 : Int)) else some ((digitsVal p.2 : Int))

/-- Embedding of `convert_local`: parse the timestamp text and convert to a
naive local timestamp.  Timestamps are represented as integer seconds of the
(fixed) local clock, and in the model the timestamp text carries that integer
directly, since no claim under verification depends on the ISO-8601 format or
on the timezone conversion itself. -/
def convert_local (s : String) : Option Int := pyInt s

/-- A Python value occurring in the extracted dicts: float, int, or
datetime (`vTime`, an integer local-clock second count). -/
inductive PyVal : Type where
  | vFloat (q : PyFloat)
  | vInt (n : Int)
  | vTime (t : Int)
deriving DecidableEq

/-- A Python dict in insertion order (no key is inserted twice by the
program, so an association list is faithful). -/
abbrev Dict := List (String × PyVal)

/-- The keys of a dict, in insertion order. -/
def dictKeys (d : Dict) : List String := d.map Prod.fst

/-- Failure classes of the program, named after the spec's error taxonomy;
each constructor stands for the concrete Python exception the source raises
at the corresponding site. -/
inductive TcxError : Type where
  | missingField (fld : String)
  | fieldParse (fld : String)
  | schemaError
deriving DecidableEq

instance {ε α : Type} [DecidableEq ε] [DecidableEq α] : DecidableEq (Except ε α) :=
  fun x y =>
    match x, y with
    | Except.ok a, Except.ok b =>
      if h : a = b then isTrue (by rw [h]) else
        isFalse (fun hh => h (Except.ok.inj hh))
    | Except.ok _, Except.error _ => isFalse (fun hh => Except.noConfusion hh)
    | Except.error _, Except.ok _ => isFalse (fun hh => Except.noConfusion hh)
    | Except.error e, Except.error f =>
      if h : e = f then isTrue (by rw [h]) else
        isFalse (fun hh => h (Except.error.inj hh))

/-- `float(elem.text)`: `None` text raises `TypeError`, non-numeric text
raises `ValueError`; both are `FieldParseError` in the spec's taxonomy. -/
def coerceFloat (fld : String) (txt : Option String) : Except TcxError PyFloat :=
  match txt with
  | none => Except.error (TcxError.fieldParse fld)
  | some s =>
    match pyFloat s with
    | none => Except.error (TcxError.fieldParse fld)
    | some q => Except.ok q

/-- `int(elem.text)`, analogously. -/
def coerceInt (fld : String) (txt : Option String) : Except TcxError Int :=
  match txt with
  | none => Except.error (TcxError.fieldParse fld)
  | some s =>
    match pyInt s with
    | none => Except.error (TcxError.fieldParse fld)
    | some n => Except.ok n

/-- One optional float field: `elem = node.find(tag); if elem is not None:
data[fld] = float(elem.text)`. -/
def optFloat (d : Dict) (e : Element) (tag fld : String) : Except TcxError Dict :=
  match findChild e tag with
  | none => Except.ok d
  | some c =>
    match coerceFloat fld c.text with
    | Except.error er => Except.error er
    | Except.ok q => Except.ok (d ++ [(fld, PyVal.vFloat q)])

/-- One optional int field, as `optFloat`. -/
def optInt (d : Dict) (e : Element) (tag fld : String) : Except TcxError Dict :=
  match findChild e tag with
  | none => Except.ok d
  | some c =>
    match coerceInt fld c.text with
    | Except.error er => Except.error er
    | Except.ok n => Except.ok (d ++ [(fld, PyVal.vInt n)])

/-- One optional heart-rate style float field: the wrapper element holds a
`ns:Value` child whose text is read (`wrapper.find('ns:Value').text`); a
wrapper without `ns:Value` makes the source dereference `None`
(`AttributeError`), modelled as a missing-field failure. -/
def optHrFloat (d : Dict) (e : Element) (tag fld : String) : Except TcxError Dict :=
  match findChild e tag with
  | none => Except.ok d
  | some w =>
    match findChild w "ns:Value" with
    | none => Except.error (TcxError.missingField fld)
    | some v =>
      match coerceFloat fld v.text with
      | Except.error er => Except.error er
      | Except.ok q => Except.ok (d ++ [(fld, PyVal.vFloat q)])

/-- As `optHrFloat` but coercing to int (trackpoint instantaneous HR). -/
def optHrInt (d : Dict) (e : Element) (tag fld : String) : Except TcxError Dict :=
  match findChild e tag with
  | none => Except.ok d
  | some w =>
    match findChild w "ns:Value" with
    | none => Except.error (TcxError.missingField fld)
    | some v =>
      match coerceInt fld v.text with
      | Except.error er => Except.error er
      | Except.ok n => Except.ok (d ++ [(fld, PyVal.vInt n)])

/-- `lap.attrib['StartTime']` followed by `convert_local`: a missing
attribute is a `KeyError` (missing field), unparseable text a parse
failure. -/
def lapStartTime (lap : Element) : Except TcxError Int :=
  match lap.attrib.lookup "StartTime" with
  | none => Except.error (TcxError.missingField "StartTime")
  | some s =>
    match convert_local s with
    | none => Except.error (TcxError.fieldParse "start_time")
    | some t => Except.ok t

/-- Embedding of `get_tcx_lap_data`: required `StartTime` attribute, then the
six optional lap fields in source order. -/
def get_tcx_lap_data (lap : Element) : Except TcxError Dict := do
  let st ← lapStartTime lap
  let d1 ← optFloat [("start_time", PyVal.vTime st)] lap "ns:DistanceMeters" "distance"
  let d2 ← optInt d1 lap "ns:Calories" "calories"
  let d3 ← optFloat d2 lap "ns:TotalTimeSeconds" "total_time"
  let d4 ← optFloat d3 lap "ns:MaximumSpeed" "max_speed"
  let d5 ← optHrFloat d4 lap "ns:MaximumHeartRateBpm" "max_hr"
  let d6 ← optHrFloat d5 lap "ns:AverageHeartRateBpm" "avg_hr"
  pure d6

/-- The `watt` step of `get_tcx_trackpoint_data`:
`watt_elem = trackpoint.find('.//ns3:Watts')` (recursive descent!) and, when
present, `data['watt'] = float(watt_elem.text or 0)` — a falsy text (`None`
or the empty string) is replaced by `0` before coercion, while any other
text (whitespace included) goes to `float` unchanged. -/
def wattStep (d : Dict) (tp : Element) : Except TcxError Dict :=
  match tp.findRec "ns3:Watts" with
  | none => Except.ok d
  | some w =>
    if w.text = none ∨ w.text = some "" then
      Except.ok (d ++ [("watt", PyVal.vFloat ⟨0, 0⟩)])
    else
      match coerceFloat "watt" w.text with
      | Except.error er => Except.error er
      | Except.ok q => Except.ok (d ++ [("watt", PyVal.vFloat q)])

/-- The required-time step of `get_tcx_trackpoint_data`:
`trackpoint.find('ns:Time').text` dereferences the result of `find` without
a `None` check, so a missing time child is the taxonomy's missing-field
failure; a missing or unparseable text is a parse failure. -/
def tpTime (tp : Element) : Except TcxError Int :=
  match findChild tp "ns:Time" with
  | none => Except.error (TcxError.missingField "Time")
  | some te =>
    match te.text with
    | none => Except.error (TcxError.fieldParse "time")
    | some s =>
      match convert_local s with
      | none => Except.error (TcxError.fieldParse "time")
      | some t => Except.ok t

/-- Embedding of `get_tcx_trackpoint_data`: required time (see `tpTime`),
then cadence, distance, heart rate, and the recursive `watt` lookup, in
source order. -/
def get_tcx_trackpoint_data (tp : Element) : Except TcxError Dict := do
  let t ← tpTime tp
  let d1 ← optFloat [("time", PyVal.vTime t)] tp "ns:Cadence" "cadence"
  let d2 ← optFloat d1 tp "ns:DistanceMeters" "distance"
  let d3 ← optHrInt d2 tp "ns:HeartRateBpm" "heart_rate"
  wattStep d3 tp

/-- The fixed lap-table column list of the source. -/
def LAPS_COLUMN_NAMES : List String :=
  ["number", "start_time", "distance", "calories", "total_time", "max_speed",
   "max_hr", "avg_hr"]

/-- The fixed trackpoint-table column list of the source. -/
def TRACKPOINT_COLUMN_NAMES : List String :=
  ["time", "distance", "heart_rate", "watt", "cadence"]

/-- A pandas DataFrame as the program uses it: a fixed column list, an
optional index column (after `set_index`), and rows of per-column optional
values (a key absent from a row's dict shows up as a missing value, `none`,
in that column). -/
structure DataFrame where
  columns : List String
  index : List (Option PyVal)
  rows : List (List (Option PyVal))
deriving DecidableEq

/-- One DataFrame row from one dict under a fixed column list:
`pd.DataFrame(data, columns=...)` keeps exactly the listed columns, takes a
dict's value where the key is present, a missing value where it is not, and
silently drops keys outside the list. -/
def dfRow (cols : List String) (d : Dict) : List (Option PyVal) :=
  cols.map (fun c => d.lookup c)

/-- `pd.DataFrame(data, columns=cols)`. -/
def mkDataFrame (cols : List String) (data : List Dict) : DataFrame :=
  ⟨cols, [], data.map (dfRow cols)⟩

/-- `df.set_index(col)`: move the named column out of the columns into the
index. -/
def setIndex (df : DataFrame) (col : String) : DataFrame :=
  match df.columns.findIdx? (fun c => c == col) with
  | none => df
  | some i =>
    ⟨df.columns.eraseIdx i, df.rows.map (fun r => r.getD i none),
     df.rows.map (fun r => r.eraseIdx i)⟩

/-- The inner trackpoint loop of `get_dataframes`: extract each trackpoint
node in document order; the first extraction failure aborts the whole run. -/
def collectPoints : List Element → Except TcxError (List Dict)
  | [] => Except.ok []
  | tp :: rest => do
    let p ← get_tcx_trackpoint_data tp
    let ps ← collectPoints rest
    Except.ok (p :: ps)

/-- The body of the per-lap iteration of `get_dataframes`: extract the lap
dict, stamp it with `number = lap_no`, then iterate the trackpoints of the
lap's `ns:Track` child.  The source calls `track.findall(...)` on the result
of `find` without a `None` check, so a lap without a `ns:Track` child fails
(`AttributeError`, a missing-field failure in the taxonomy).  A trackpoint
whose extracted dict is empty is skipped (`if single_point_data:`); a
non-empty one is stamped with `lap = lap_no` and collected. -/
def processLap (lapNo : Int) (lap : Element) : Except TcxError (Dict × List Dict) := do
  let d ← get_tcx_lap_data lap
  match findChild lap "ns:Track" with
  | none => Except.error (TcxError.missingField "Track")
  | some track => do
    let raw ← collectPoints (findallChildren track "ns:Trackpoint")
    Except.ok (d ++ [("number", PyVal.vInt lapNo)],
      raw.filterMap (fun p =>
        if p.isEmpty then none else some (p ++ [("lap", PyVal.vInt lapNo)])))

/-- The lap loop of `get_dataframes`: `lap_no` starts at the given value and
increments by one per lap node, laps and trackpoints are accumulated in
document order. -/
def lapsLoop : Int → List Element → Except TcxError (List Dict × List Dict)
  | _, [] => Except.ok ([], [])
  | n, lap :: rest => do
    let hd ← processLap n lap
    let tl ← lapsLoop (n + 1) rest
    Except.ok (hd.1 :: tl.1, hd.2 ++ tl.2)

/-- `root.find('ns:Activities')[0]`: fails when the container is absent
(`TypeError`: `None` is not subscriptable) or childless (`IndexError`), both
the taxonomy's `SchemaError`; otherwise yields the first activity node. -/
def firstActivity (root : Element) : Except TcxError Element :=
  match findChild root "ns:Activities" with
  | none => Except.error TcxError.schemaError
  | some acts =>
    match acts.children with
    | [] => Except.error TcxError.schemaError
    | a :: _ => Except.ok a

/-- Embedding of `get_dataframes` on an already-parsed document root: only
the first activity node is processed (see `firstActivity`); the collected
dicts become the two DataFrames under the fixed column lists, and the laps
DataFrame is indexed by `number`. -/
def get_dataframes (root : Element) : Except TcxError (DataFrame × DataFrame) := do
  let activity ← firstActivity root
  let lp ← lapsLoop 1 (findallChildren activity "ns:Lap")
  Except.ok (setIndex (mkDataFrame LAPS_COLUMN_NAMES lp.1) "number",
             mkDataFrame TRACKPOINT_COLUMN_NAMES lp.2)

/-- A row of a device's lap table as the aligner sees it: the `start_time`
timestamp (integer local-clock seconds) and the remaining, non-timestamp
summary columns, which the aligner never touches. -/
structure LapRow where
  start_time : Int
  summary : List (Option PyVal)
deriving DecidableEq

/-- A row of a device's trackpoint table as the aligner sees it (the five
fixed trackpoint columns, `time` as integer seconds). -/
structure PointRow where
  time : Int
  distance : Option PyFloat
  heart_rate : Option Int
  watt : Option PyFloat
  cadence : Option PyFloat
deriving DecidableEq

/-- `df[col].min()` on a timestamp column: `none` on an empty table. -/
def columnMin : List Int → Option Int
  | [] => none
  | x :: xs => some (xs.foldl min x)

/-- Embedding of lines 176–197 of `__main__`: `garmin_start` and
`concept2_start` are the minima of the two lap tables' `start_time` columns,
`total_seconds` their signed difference, and the concept2 (deviceB) lap
`start_time` and trackpoint `time` columns are shifted by that many seconds;
the garmin (deviceA) tables are returned untouched.  Rows keep every other
field unchanged. -/
def alignDevices (lapsG : List LapRow) (ptsG : List PointRow)
    (lapsC : List LapRow) (ptsC : List PointRow) :
    Option (Int × List LapRow × List PointRow × List LapRow × List PointRow) :=
  match columnMin (lapsG.map LapRow.start_time),
        columnMin (lapsC.map LapRow.start_time) with
  | some gs, some cs =>
    let off := gs - cs
    some (off, lapsG, ptsG,
          lapsC.map (fun l => ⟨l.start_time + off, l.summary⟩),
          ptsC.map (fun p => ⟨p.time + off, p.distance, p.heart_rate, p.watt, p.cadence⟩))
  | _, _ => none

/-- The left operand of line 200's merge: the concept2 trackpoint columns
`[time, distance, watt, cadence]` (heart_rate deselected). -/
structure TrackB where
  time : Int
  distance : Option PyFloat
  watt : Option PyFloat
  cadence : Option PyFloat
deriving DecidableEq

/-- The right operand of line 200's merge: the garmin trackpoint columns
`[time, heart_rate]`. -/
structure TrackA where
  time : Int
  heart_rate : Option Int
deriving DecidableEq

/-- A row of the merged table (before the derived duration columns). -/
structure MergedRow where
  time : Int
  distance : Option PyFloat
  watt : Option PyFloat
  cadence : Option PyFloat
  heart_rate : Option Int
deriving DecidableEq

/-- One pointer advance of pandas' grouped backward kernel
`asof_join_backward_on_X_by_Y`: consume every right row whose key is ≤ the
current left key, recording each consumed row's by-value → heart_rate binding
in the hash table (a newer binding shadows an older one with the same
by-value); stop at the first right row beyond the left key. -/
def advanceRight : List TrackA → List (Int × Option Int) → Int →
    List TrackA × List (Int × Option Int)
  | [], tbl, _ => ([], tbl)
  | r :: rs, tbl, t =>
    if r.time ≤ t then advanceRight rs ((r.time, r.heart_rate) :: tbl) t
    else (r :: rs, tbl)

/-- The left-to-right sweep of pandas' grouped backward kernel: for each left
row, advance the right pointer, then look the left row's by-value — which,
with `by="time"`, is its own time — up in the hash table; an absent by-value
gives a missing heart rate. -/
def mergeLoop : List TrackB → List TrackA → List (Int × Option Int) → List MergedRow
  | [], _, _ => []
  | l :: ls, rs, tbl =>
    let st := advanceRight rs tbl l.time
    ⟨l.time, l.distance, l.watt, l.cadence, (st.2.lookup l.time).join⟩ ::
      mergeLoop ls st.1 st.2

/-- Embedding of line 200,
`pd.merge_asof(left, right, on="time", by="time")` (default backward
direction, exact matches allowed): pandas prepends the `by` key to the join
keys and runs its grouped backward kernel, so each left row is paired with
the latest preceding-or-equal right row whose by-value — here the time
itself — equals the left row's time.  Passing the `on` column again as `by`
thus restricts the join to exactly-equal times. -/
def merge_asof_on_time_by_time (ls : List TrackB) (rs : List TrackA) :
    List MergedRow :=
  mergeLoop ls rs []

/-- Modelled from the spec: the plain backward as-of
(last-observation-carried-forward) join that §4.3 step 4 and §8 describe —
each deviceB row takes the heart rate of the most recent deviceA sample
whose time is ≤ the row's time, and a row before deviceA's first sample gets
a missing heart rate.  Stated only for comparison with the embedding of the
source's actual call. -/
def asof_join_backward (ls : List TrackB) (rs : List TrackA) : List MergedRow :=
  ls.map (fun l =>
    ⟨l.time, l.distance, l.watt, l.cadence,
     ((rs.filter (fun r => r.time ≤ l.time)).getLast?).bind TrackA.heart_rate⟩)

/-- Column selections of line 200 applied to full trackpoint rows. -/
def selectLeft (p : PointRow) : TrackB := ⟨p.time, p.distance, p.watt, p.cadence⟩

/-- Right-hand column selection of line 200. -/
def selectRight (p : PointRow) : TrackA := ⟨p.time, p.heart_rate⟩

/-- Line 200 on the two trackpoint tables: select the columns and merge. -/
def line200_merge (ptsC ptsG : List PointRow) : List MergedRow :=
  merge_asof_on_time_by_time (ptsC.map selectLeft) (ptsG.map selectRight)

/-- The optional lap field names whose elements are present on a lap node,
in the order `get_tcx_lap_data` probes them.  Defined from element presence
only, independently of the extractor. -/
def lapOptionalKeys (lap : Element) : List String :=
  (if (findChild lap "ns:DistanceMeters").isSome then ["distance"] else []) ++
  (if (findChild lap "ns:Calories").isSome then ["calories"] else []) ++
  (if (findChild lap "ns:TotalTimeSeconds").isSome then ["total_time"] else []) ++
  (if (findChild lap "ns:MaximumSpeed").isSome then ["max_speed"] else []) ++
  (if (findChild lap "ns:MaximumHeartRateBpm").isSome then ["max_hr"] else []) ++
  (if (findChild lap "ns:AverageHeartRateBpm").isSome then ["avg_hr"] else [])

/-- The optional trackpoint field names whose elements are present, in probe
order; note that only `watt` is governed by the recursive descendant search. -/
def tpOptionalKeys (tp : Element) : List String :=
  (if (findChild tp "ns:Cadence").isSome then ["cadence"] else []) ++
  (if (findChild tp "ns:DistanceMeters").isSome then ["distance"] else []) ++
  (if (findChild tp "ns:HeartRateBpm").isSome then ["heart_rate"] else []) ++
  (if (tp.findRec "ns3:Watts").isSome then ["watt"] else [])

/-! Concrete documents used as witnesses. -/

/-- A trackpoint whose `ns3:Watts` element (nested two levels down, as in
real TCX extensions) has whitespace-only text. -/
def wsWattTp : Element :=
  mkE "ns:Trackpoint" [] none
    [mkE "ns:Time" [] (some "5") [],
     mkE "ns:Extensions" [] none
       [mkE "ns3:TPX" [] none [mkE "ns3:Watts" [] (some " ") []]]]

/-- The `ns3:Watts` element inside `wsWattTp`. -/
def wsWatts : Element := mkE "ns3:Watts" [] (some " ") []

/-- A trackpoint whose nested `ns3:Watts` element has no text at all. -/
def emptyWattTp : Element :=
  mkE "ns:Trackpoint" [] none
    [mkE "ns:Time" [] (some "5") [],
     mkE "ns:Extensions" [] none
       [mkE "ns3:TPX" [] none [mkE "ns3:Watts" [] none []]]]

/-- A trackpoint with a direct `ns:Cadence` child with empty text. -/
def cadEmptyTp : Element :=
  mkE "ns:Trackpoint" [] none
    [mkE "ns:Time" [] (some "5") [],
     mkE "ns:Cadence" [] (some "") []]

/-- A trackpoint with no `ns:Time` child. -/
def tpNoTime : Element := mkE "ns:Trackpoint" [] none [mkE "ns:Cadence" [] (some "88") []]

/-- A trackpoint whose `ns3:Watts` sits two levels deep while an `ns:Cadence`
element also sits two levels deep (so the direct-child cadence lookup misses
it, but the recursive watt lookup finds its element). -/
def deepTp : Element :=
  mkE "ns:Trackpoint" [] none
    [mkE "ns:Time" [] (some "7") [],
     mkE "ns:Extensions" [] none
       [mkE "ns3:TPX" [] none
         [mkE "ns3:Watts" [] (some "2.4") [],
          mkE "ns:Cadence" [] (some "90") []]]]

/-- The dict `get_tcx_trackpoint_data` extracts from `deepTp`. -/
def deepDict : Dict := [("time", PyVal.vTime 7), ("watt", PyVal.vFloat ⟨24, 1⟩)]

/-- The spec §8 scenario lap: a StartTime, a distance of "1000.0", no
Calories, plus a Track with one trackpoint. -/
def sampleLap : Element :=
  mkE "ns:Lap" [("StartTime", "100")] none
    [mkE "ns:DistanceMeters" [] (some "1000.0") [],
     mkE "ns:Track" [] none
       [mkE "ns:Trackpoint" [] none [mkE "ns:Time" [] (some "101") []]]]

/-- A second lap with an empty Track. -/
def emptyTrackLap : Element :=
  mkE "ns:Lap" [("StartTime", "200")] none [mkE "ns:Track" [] none []]

/-- A lap with no `ns:Track` child at all. -/
def noTrackLap : Element := mkE "ns:Lap" [("StartTime", "300")] none []

/-- A one-activity document built around `sampleLap`. -/
def sampleRoot : Element :=
  mkE "TrainingCenterDatabase" [] none
    [mkE "ns:Activities" [] none [mkE "ns:Activity" [] none [sampleLap]]]

/-- A document with no `ns:Activities` container. -/
def rootNoActs : Element := mkE "TrainingCenterDatabase" [] none []

/-- A document whose `ns:Activities` container has no children. -/
def rootEmptyActs : Element :=
  mkE "TrainingCenterDatabase" [] none [mkE "ns:Activities" [] none []]

/-- A single-activity document: the activity holds `emptyTrackLap`. -/
def rootOneAct : Element :=
  mkE "TrainingCenterDatabase" [] none
    [mkE "ns:Activities" [] none [mkE "ns:Activity" [] none [emptyTrackLap]]]

/-- The same first activity followed by a second activity that would fail if
it were processed (its lap has no Track). -/
def rootTwoActs : Element :=
  mkE "TrainingCenterDatabase" [] none
    [mkE "ns:Activities" [] none
      [mkE "ns:Activity" [] none [emptyTrackLap],
       mkE "ns:Activity" [] none [noTrackLap]]]

/-- A document whose only activity contains a lap without a Track child. -/
def rootNoTrack : Element :=
  mkE "TrainingCenterDatabase" [] none
    [mkE "ns:Activities" [] none [mkE "ns:Activity" [] none [sampleLap, noTrackLap]]]

/-- The `ns3:Watts` element inside `emptyWattTp`. -/
def emptyWatts : Element := mkE "ns3:Watts" [] none []

/-- The `ns:Cadence` element inside `cadEmptyTp`. -/
def emptyCad : Element := mkE "ns:Cadence" [] (some "") []

/-- The lap dicts `lapsLoop 1 [sampleLap, emptyTrackLap]` collects. -/
def c3Laps : List Dict :=
  [[("start_time", PyVal.vTime 100), ("distance", PyVal.vFloat ⟨10000, 1⟩),
    ("number", PyVal.vInt 1)],
   [("start_time", PyVal.vTime 200), ("number", PyVal.vInt 2)]]

/-- The stamped trackpoint dicts of the same run. -/
def c3Pts : List Dict := [[("time", PyVal.vTime 101), ("lap", PyVal.vInt 1)]]

/-- The laps DataFrame `get_dataframes sampleRoot` produces. -/
def c8LapsDf : DataFrame :=
  ⟨["start_time", "distance", "calories", "total_time", "max_speed", "max_hr", "avg_hr"],
   [some (PyVal.vInt 1)],
   [[some (PyVal.vTime 100), some (PyVal.vFloat ⟨10000, 1⟩), none, none, none, none, none]]⟩

/-- The trackpoints DataFrame `get_dataframes sampleRoot` produces. -/
def c8PtsDf : DataFrame :=
  ⟨TRACKPOINT_COLUMN_NAMES, [], [[some (PyVal.vTime 101), none, none, none, none]]⟩

/-! ## Generic lemmas about the embedding's plumbing -/

theorem exceptBind_ok {ε α β : Type} {x : Except ε α} {f : α → Except ε β} {b : β} :
    x >>= f = Except.ok b ↔ ∃ a, x = Except.ok a ∧ f a = Except.ok b := by
  cases x with
  | ok a => simp [Bind.bind, Except.bind]
  | error e => simp [Bind.bind, Except.bind]

theorem exceptBind_error {ε α β : Type} {x : Except ε α} {f : α → Except ε β} {e : ε} :
    x >>= f = Except.error e ↔
      x = Except.error e ∨ ∃ a, x = Except.ok a ∧ f a = Except.error e := by
  cases x with
  | ok a => simp [Bind.bind, Except.bind]
  | error e => simp [Bind.bind, Except.bind]

theorem lookup_append (d₁ d₂ : Dict) (c : String) :
    List.lookup c (d₁ ++ d₂) = (List.lookup c d₁).orElse (fun _ => List.lookup c d₂) := by
  induction d₁ with
  | nil => simp [List.lookup]
  | cons p t ih =>
    cases hck : (c == p.1) <;> simp [List.lookup, hck, ih]

theorem lookup_not_mem {d : Dict} {c : String} (h : c ∉ dictKeys d) :
    List.lookup c d = none := by
  induction d with
  | nil => rfl
  | cons p t ih =>
    simp only [dictKeys, List.map_cons, List.mem_cons, not_or] at h
    have hck : (c == p.1) = false := by
      cases hb : (c == p.1)
      · rfl
      · exact absurd (by simpa using hb) h.1
    simp only [List.lookup, hck]
    exact ih h.2

theorem lookup_append_last {d : Dict} {c : String} {v : PyVal} (h : c ∉ dictKeys d) :
    List.lookup c (d ++ [(c, v)]) = some v := by
  rw [lookup_append, lookup_not_mem h]
  simp [List.lookup]

theorem lookup_append_other {d : Dict} {c k : String} {v : PyVal} (h : c ≠ k) :
    List.lookup c (d ++ [(k, v)]) = List.lookup c d := by
  rw [lookup_append]
  have hck : (c == k) = false := by
    cases hb : (c == k)
    · rfl
    · exact absurd (by simpa using hb) h
  have h1 : List.lookup c ([(k, v)] : Dict) = none := by simp [List.lookup, hck]
  rw [h1]
  cases List.lookup c d <;> rfl

theorem mem_ite_nil {α : Type} {a : α} {c : Prop} [Decidable c] {l : List α}
    (h : a ∈ (if c then l else [])) : a ∈ l := by
  split at h
  · exact h
  · cases h

/-! ## Key characterization of the field-extractor steps -/

theorem optFloat_ok_keys {d : Dict} {e : Element} {tag fld : String} {d' : Dict}
    (h : optFloat d e tag fld = Except.ok d') :
    dictKeys d' = dictKeys d ++ (if (findChild e tag).isSome then [fld] else []) := by
  unfold optFloat at h
  split at h
  next hf => cases h; simp [hf]
  next c hf =>
    split at h
    next => cases h
    next q hc => cases h; simp [hf, dictKeys]

theorem optInt_ok_keys {d : Dict} {e : Element} {tag fld : String} {d' : Dict}
    (h : optInt d e tag fld = Except.ok d') :
    dictKeys d' = dictKeys d ++ (if (findChild e tag).isSome then [fld] else []) := by
  unfold optInt at h
  split at h
  next hf => cases h; simp [hf]
  next c hf =>
    split at h
    next => cases h
    next q hc => cases h; simp [hf, dictKeys]

theorem optHrFloat_ok_keys {d : Dict} {e : Element} {tag fld : String} {d' : Dict}
    (h : optHrFloat d e tag fld = Except.ok d') :
    dictKeys d' = dictKeys d ++ (if (findChild e tag).isSome then [fld] else []) := by
  unfold optHrFloat at h
  split at h
  next hf => cases h; simp [hf]
  next w hf =>
    split at h
    next => cases h
    next v hv =>
      split at h
      next => cases h
      next q hc => cases h; simp [hf, dictKeys]

theorem optHrInt_ok_keys {d : Dict} {e : Element} {tag fld : String} {d' : Dict}
    (h : optHrInt d e tag fld = Except.ok d') :
    dictKeys d' = dictKeys d ++ (if (findChild e tag).isSome then [fld] else []) := by
  unfold optHrInt at h
  split at h
  next hf => cases h; simp [hf]
  next w hf =>
    split at h
    next => cases h
    next v hv =>
      split at h
      next => cases h
      next q hc => cases h; simp [hf, dictKeys]

theorem wattStep_ok_keys {d : Dict} {tp : Element} {d' : Dict}
    (h : wattStep d tp = Except.ok d') :
    dictKeys d' = dictKeys d ++
      (if (tp.findRec "ns3:Watts").isSome then ["watt"] else []) := by
  unfold wattStep at h
  split at h
  next hf => cases h; simp [hf]
  next w hf =>
    split at h
    next ht => cases h; simp [hf, dictKeys]
    next ht =>
      split at h
      next => cases h
      next q hc => cases h; simp [hf, dictKeys]

theorem optFloat_ok_lookup {d : Dict} {e : Element} {tag fld : String} {d' : Dict}
    (h : optFloat d e tag fld = Except.ok d') {c : String} (hc : c ≠ fld) :
    List.lookup c d' = List.lookup c d := by
  unfold optFloat at h
  split at h
  next hf => cases h; rfl
  next cc hf =>
    split at h
    next => cases h
    next q hq => cases h; exact lookup_append_other hc

theorem optHrInt_ok_lookup {d : Dict} {e : Element} {tag fld : String} {d' : Dict}
    (h : optHrInt d e tag fld = Except.ok d') {c : String} (hc : c ≠ fld) :
    List.lookup c d' = List.lookup c d := by
  unfold optHrInt at h
  split at h
  next hf => cases h; rfl
  next w hf =>
    split at h
    next => cases h
    next v hv =>
      split at h
      next => cases h
      next q hq => cases h; exact lookup_append_other hc

/-! ## Keys of the extracted lap and trackpoint dicts -/

theorem get_tcx_lap_data_keys {lap : Element} {d : Dict}
    (h : get_tcx_lap_data lap = Except.ok d) :
    dictKeys d = "start_time" :: lapOptionalKeys lap := by
  unfold get_tcx_lap_data at h
  obtain ⟨st, hst, h⟩ := exceptBind_ok.mp h
  obtain ⟨d1, h1, h⟩ := exceptBind_ok.mp h
  obtain ⟨d2, h2, h⟩ := exceptBind_ok.mp h
  obtain ⟨d3, h3, h⟩ := exceptBind_ok.mp h
  obtain ⟨d4, h4, h⟩ := exceptBind_ok.mp h
  obtain ⟨d5, h5, h⟩ := exceptBind_ok.mp h
  obtain ⟨d6, h6, h⟩ := exceptBind_ok.mp h
  have hd : d6 = d := by
    simpa [Pure.pure, Except.pure] using h
  subst hd
  rw [lapOptionalKeys, optHrFloat_ok_keys h6, optHrFloat_ok_keys h5,
      optFloat_ok_keys h4, optFloat_ok_keys h3, optInt_ok_keys h2,
      optFloat_ok_keys h1]
  simp [dictKeys, List.append_assoc]

theorem get_tcx_trackpoint_ok_shape {tp : Element} {d : Dict}
    (h : get_tcx_trackpoint_data tp = Except.ok d) :
    ∃ (t : Int) (d3 : Dict),
      tpTime tp = Except.ok t ∧
      dictKeys d3 = "time" ::
        ((if (findChild tp "ns:Cadence").isSome then ["cadence"] else []) ++
         (if (findChild tp "ns:DistanceMeters").isSome then ["distance"] else []) ++
         (if (findChild tp "ns:HeartRateBpm").isSome then ["heart_rate"] else [])) ∧
      wattStep d3 tp = Except.ok d := by
  unfold get_tcx_trackpoint_data at h
  obtain ⟨t, ht, h⟩ := exceptBind_ok.mp h
  obtain ⟨d1, h1, h⟩ := exceptBind_ok.mp h
  obtain ⟨d2, h2, h⟩ := exceptBind_ok.mp h
  obtain ⟨d3, h3, h⟩ := exceptBind_ok.mp h
  refine ⟨t, d3, ht, ?_, h⟩
  rw [optHrInt_ok_keys h3, optFloat_ok_keys h2, optFloat_ok_keys h1]
  simp [dictKeys, List.append_assoc]

theorem get_tcx_trackpoint_data_keys {tp : Element} {d : Dict}
    (h : get_tcx_trackpoint_data tp = Except.ok d) :
    dictKeys d = "time" :: tpOptionalKeys tp := by
  obtain ⟨t, d3, ht, hk, hw⟩ := get_tcx_trackpoint_ok_shape h
  rw [tpOptionalKeys, wattStep_ok_keys hw, hk]
  simp [List.append_assoc]

/-! ## Field names that never collide with the stamped keys -/

theorem not_mem_lapKeys (lap : Element) {c : String}
    (h1 : c ≠ "start_time") (h2 : c ≠ "distance") (h3 : c ≠ "calories")
    (h4 : c ≠ "total_time") (h5 : c ≠ "max_speed") (h6 : c ≠ "max_hr")
    (h7 : c ≠ "avg_hr") :
    c ∉ "start_time" :: lapOptionalKeys lap := by
  intro hmem
  rcases List.mem_cons.mp hmem with h | hmem
  · exact h1 h
  rw [lapOptionalKeys] at hmem
  simp only [List.mem_append] at hmem
  rcases hmem with ((((h | h) | h) | h) | h) | h <;>
    first
    | exact absurd (List.mem_singleton.mp (mem_ite_nil h)) (by assumption)

theorem not_mem_tpKeys (tp : Element) {c : String}
    (h1 : c ≠ "time") (h2 : c ≠ "cadence") (h3 : c ≠ "distance")
    (h4 : c ≠ "heart_rate") (h5 : c ≠ "watt") :
    c ∉ "time" :: tpOptionalKeys tp := by
  intro hmem
  rcases List.mem_cons.mp hmem with h | hmem
  · exact h1 h
  rw [tpOptionalKeys] at hmem
  simp only [List.mem_append] at hmem
  rcases hmem with ((h | h) | h) | h <;>
    first
    | exact absurd (List.mem_singleton.mp (mem_ite_nil h)) (by assumption)

theorem mem_ite_singleton {a b : String} {c : Prop} [Decidable c] :
    a ∈ (if c then [b] else []) ↔ c ∧ a = b := by
  split <;> simp_all

theorem dfRow_append_not_col {cols : List String} {dd : Dict} {k : String} {v : PyVal}
    (h : k ∉ cols) : dfRow cols (dd ++ [(k, v)]) = dfRow cols dd := by
  unfold dfRow
  apply List.map_congr_left
  intro c hc
  exact lookup_append_other (fun heq => h (heq ▸ hc))

theorem tpTime_ok_findChild {tp : Element} {t : Int} (h : tpTime tp = Except.ok t) :
    (findChild tp "ns:Time").isSome = true := by
  unfold tpTime at h
  split at h
  next => cases h
  next te hf => simp [hf]

/-! ## The per-lap loop -/

theorem processLap_ok_shape {n : Int} {lap : Element} {dn : Dict} {pts : List Dict}
    (h : processLap n lap = Except.ok (dn, pts)) :
    ∃ d track raw,
      get_tcx_lap_data lap = Except.ok d ∧
      findChild lap "ns:Track" = some track ∧
      collectPoints (findallChildren track "ns:Trackpoint") = Except.ok raw ∧
      dn = d ++ [("number", PyVal.vInt n)] ∧
      pts = raw.filterMap (fun p =>
        if p.isEmpty then none else some (p ++ [("lap", PyVal.vInt n)])) := by
  unfold processLap at h
  obtain ⟨d, hd, h⟩ := exceptBind_ok.mp h
  split at h
  next hf => cases h
  next track hf =>
    obtain ⟨raw, hraw, h⟩ := exceptBind_ok.mp h
    simp only [Except.ok.injEq, Prod.mk.injEq] at h
    exact ⟨d, track, raw, hd, hf, hraw, h.1.symm, h.2.symm⟩

theorem processLap_noTrack {lap : Element} (hf : findChild lap "ns:Track" = none)
    (n : Int) : ∃ er, processLap n lap = Except.error er := by
  unfold processLap
  cases hl : get_tcx_lap_data lap with
  | error er => exact ⟨er, by simp [Bind.bind, Except.bind, hl]⟩
  | ok d =>
    refine ⟨TcxError.missingField "Track", ?_⟩
    simp [Bind.bind, Except.bind, hl, hf]

theorem collectPoints_mem {l : List Element} {out : List Dict}
    (h : collectPoints l = Except.ok out) :
    ∀ p ∈ out, ∃ tp, tp ∈ l ∧ get_tcx_trackpoint_data tp = Except.ok p := by
  induction l generalizing out with
  | nil =>
    unfold collectPoints at h
    cases h
    intro p hp
    cases hp
  | cons tp rest ih =>
    unfold collectPoints at h
    obtain ⟨p0, hp0, h⟩ := exceptBind_ok.mp h
    obtain ⟨ps, hps, h⟩ := exceptBind_ok.mp h
    cases h
    intro p hp
    rcases List.mem_cons.mp hp with rfl | hp
    · exact ⟨tp, List.mem_cons_self tp rest, hp0⟩
    · obtain ⟨tp', htp', hok⟩ := ih hps p hp
      exact ⟨tp', List.mem_cons_of_mem _ htp', hok⟩

theorem lapsLoop_ok_spec {ls : List Element} {n : Int} {laps pts : List Dict}
    (h : lapsLoop n ls = Except.ok (laps, pts)) :
    laps.length = ls.length ∧
    (∀ i (hi : i < laps.length),
       List.lookup "number" (laps.get ⟨i, hi⟩) = some (PyVal.vInt (n + i))) ∧
    (∀ p ∈ pts, ∃ k : Int, List.lookup "lap" p = some (PyVal.vInt k) ∧
       n ≤ k ∧ k < n + (laps.length : Int)) := by
  induction ls generalizing n laps pts with
  | nil =>
    unfold lapsLoop at h
    simp only [Except.ok.injEq, Prod.mk.injEq] at h
    obtain ⟨h1, h2⟩ := h
    subst h1
    subst h2
    refine ⟨rfl, ?_, ?_⟩
    · intro i hi; cases hi
    · intro p hp; cases hp
  | cons lap rest ih =>
    unfold lapsLoop at h
    obtain ⟨hd, hhd, h⟩ := exceptBind_ok.mp h
    obtain ⟨tl, htl, h⟩ := exceptBind_ok.mp h
    simp only [Except.ok.injEq, Prod.mk.injEq] at h
    obtain ⟨hlaps, hpts⟩ := h
    subst hlaps
    subst hpts
    obtain ⟨hlen, hnum, hptsIH⟩ := ih htl
    obtain ⟨d0, track, raw, hld, htr, hcp, hdn, hpts0⟩ := processLap_ok_shape hhd
    have hnn : "number" ∉ dictKeys d0 := by
      rw [get_tcx_lap_data_keys hld]
      exact not_mem_lapKeys lap (by decide) (by decide) (by decide) (by decide)
        (by decide) (by decide) (by decide)
    have hheadnum : List.lookup "number" hd.1 = some (PyVal.vInt n) := by
      rw [hdn]; exact lookup_append_last hnn
    refine ⟨by simpa using hlen, ?_, ?_⟩
    · intro i hi
      cases i with
      | zero => simpa using hheadnum
      | succ j =>
        have hj : j < tl.1.length := by simpa using hi
        have := hnum j hj
        have harith : n + 1 + (j : Int) = n + ((j + 1 : Nat) : Int) := by push_cast; ring
        simpa [harith] using this
    · intro p hp
      rcases List.mem_append.mp hp with hp | hp
      · -- p from the head lap
        rw [hpts0] at hp
        obtain ⟨p0, hp0raw, hp0⟩ := List.mem_filterMap.mp hp
        obtain ⟨tp, htp, htpok⟩ := collectPoints_mem hcp p0 hp0raw
        have hnl : "lap" ∉ dictKeys p0 := by
          rw [get_tcx_trackpoint_data_keys htpok]
          exact not_mem_tpKeys tp (by decide) (by decide) (by decide) (by decide)
            (by decide)
        split at hp0
        · cases hp0
        · have hpeq : p = p0 ++ [("lap", PyVal.vInt n)] := (Option.some.inj hp0).symm
          refine ⟨n, ?_, le_refl n, by simp only [List.length_cons]; push_cast; omega⟩
          rw [hpeq]
          exact lookup_append_last hnl
      · obtain ⟨k, hk, hk1, hk2⟩ := hptsIH p hp
        refine ⟨k, hk, by omega, ?_⟩
        simp only [List.length_cons]
        push_cast
        omega

theorem lapsLoop_mem_error {ls : List Element} {lap : Element}
    (hmem : lap ∈ ls) (herr : ∀ n, ∃ er, processLap n lap = Except.error er) :
    ∀ n, ∃ er, lapsLoop n ls = Except.error er := by
  induction ls with
  | nil => cases hmem
  | cons hd rest ih =>
    intro n
    rcases List.mem_cons.mp hmem with rfl | hmem'
    · obtain ⟨er, he⟩ := herr n
      exact ⟨er, by unfold lapsLoop; simp [Bind.bind, Except.bind, he]⟩
    · cases hp : processLap n hd with
      | error er => exact ⟨er, by unfold lapsLoop; simp [Bind.bind, Except.bind, hp]⟩
      | ok dp =>
        obtain ⟨er, he⟩ := ih hmem' (n + 1)
        exact ⟨er, by unfold lapsLoop; simp [Bind.bind, Except.bind, hp, he]⟩

/-! ## The aligner's column minimum -/

theorem foldl_min_spec (xs : List Int) (a : Int) :
    (xs.foldl min a = a ∨ xs.foldl min a ∈ xs) ∧
    xs.foldl min a ≤ a ∧ ∀ x ∈ xs, xs.foldl min a ≤ x := by
  induction xs generalizing a with
  | nil => simp
  | cons y ys ih =>
    obtain ⟨hmem, hlea, hle⟩ := ih (min a y)
    simp only [List.foldl_cons]
    refine ⟨?_, ?_, ?_⟩
    · rcases hmem with h | h
      · rcases min_choice a y with hc | hc
        · exact Or.inl (h.trans hc)
        · exact Or.inr (List.mem_cons.mpr (Or.inl (h.trans hc)))
      · exact Or.inr (List.mem_cons_of_mem _ h)
    · exact le_trans hlea (min_le_left a y)
    · intro x hx
      rcases List.mem_cons.mp hx with rfl | hx
      · exact le_trans hlea (min_le_right a x)
      · exact hle x hx

theorem columnMin_spec {l : List Int} {m : Int} (h : columnMin l = some m) :
    m ∈ l ∧ ∀ x ∈ l, m ≤ x := by
  cases l with
  | nil => cases h
  | cons a xs =>
    have hm : xs.foldl min a = m := Option.some.inj h
    obtain ⟨hmem, hlea, hle⟩ := foldl_min_spec xs a
    rw [hm] at hmem hlea hle
    constructor
    · rcases hmem with h | h
      · exact h ▸ List.mem_cons_self _ _
      · exact List.mem_cons_of_mem _ h
    · intro x hx
      rcases List.mem_cons.mp hx with rfl | hx
      · exact hlea
      · exact hle x hx

theorem columnMin_of_ne_nil {l : List Int} (h : l ≠ []) : ∃ m, columnMin l = some m := by
  cases l with
  | nil => exact absurd rfl h
  | cons a xs => exact ⟨xs.foldl min a, rfl⟩

/-- **C2** For every pair of non-empty device lap tables, the aligner's
offset is deviceA's (garmin's) earliest lap `start_time` minus deviceB's
(concept2's) earliest lap `start_time`; every timestamp of deviceB's lap and
trackpoint tables is shifted by exactly that offset (all other fields
unchanged), and deviceA's tables are returned untouched. -/
theorem claimC2_offset_and_shift (lapsG lapsC : List LapRow) (ptsG ptsC : List PointRow)
    (hG : lapsG ≠ []) (hC : lapsC ≠ []) :
    ∃ (off gs cs : Int) (lapsC' : List LapRow) (ptsC' : List PointRow),
      alignDevices lapsG ptsG lapsC ptsC = some (off, lapsG, ptsG, lapsC', ptsC') ∧
      columnMin (lapsG.map LapRow.start_time) = some gs ∧
      gs ∈ lapsG.map LapRow.start_time ∧
      (∀ x ∈ lapsG.map LapRow.start_time, gs ≤ x) ∧
      columnMin (lapsC.map LapRow.start_time) = some cs ∧
      cs ∈ lapsC.map LapRow.start_time ∧
      (∀ x ∈ lapsC.map LapRow.start_time, cs ≤ x) ∧
      off = gs - cs ∧
      lapsC'.length = lapsC.length ∧
      (∀ i (hi : i < lapsC.length) (hi' : i < lapsC'.length),
        (lapsC'.get ⟨i, hi'⟩).start_time = (lapsC.get ⟨i, hi⟩).start_time + off ∧
        (lapsC'.get ⟨i, hi'⟩).summary = (lapsC.get ⟨i, hi⟩).summary) ∧
      ptsC'.length = ptsC.length ∧
      (∀ i (hi : i < ptsC.length) (hi' : i < ptsC'.length),
        (ptsC'.get ⟨i, hi'⟩).time = (ptsC.get ⟨i, hi⟩).time + off ∧
        (ptsC'.get ⟨i, hi'⟩).distance = (ptsC.get ⟨i, hi⟩).distance ∧
        (ptsC'.get ⟨i, hi'⟩).heart_rate = (ptsC.get ⟨i, hi⟩).heart_rate ∧
        (ptsC'.get ⟨i, hi'⟩).watt = (ptsC.get ⟨i, hi⟩).watt ∧
        (ptsC'.get ⟨i, hi'⟩).cadence = (ptsC.get ⟨i, hi⟩).cadence) := by
  have hGm : lapsG.map LapRow.start_time ≠ [] := by
    simpa [List.map_eq_nil_iff] using hG
  have hCm : lapsC.map LapRow.start_time ≠ [] := by
    simpa [List.map_eq_nil_iff] using hC
  obtain ⟨gs, hgs⟩ := columnMin_of_ne_nil hGm
  obtain ⟨cs, hcs⟩ := columnMin_of_ne_nil hCm
  refine ⟨gs - cs, gs, cs,
    lapsC.map (fun l => ⟨l.start_time + (gs - cs), l.summary⟩),
    ptsC.map (fun p => ⟨p.time + (gs - cs), p.distance, p.heart_rate, p.watt, p.cadence⟩),
    ?_, hgs, (columnMin_spec hgs).1, (columnMin_spec hgs).2,
    hcs, (columnMin_spec hcs).1, (columnMin_spec hcs).2, rfl,
    by simp, ?_, by simp, ?_⟩
  · unfold alignDevices
    rw [hgs, hcs]
  · intro i hi hi'
    constructor <;> simp [List.get_eq_getElem, List.getElem_map]
  · intro i hi hi'
    refine ⟨?_, ?_, ?_, ?_, ?_⟩ <;> simp [List.get_eq_getElem, List.getElem_map]

theorem claimC2_offset_and_shift_witness :
    ([(⟨36005, []⟩ : LapRow)] ≠ [] ∧ [(⟨35880, []⟩ : LapRow)] ≠ []) ∧
    (∃ (off gs cs : Int) (lapsC' : List LapRow) (ptsC' : List PointRow),
      alignDevices [⟨36005, []⟩] [] [⟨35880, []⟩]
          [⟨35880, some ⟨5000, 1⟩, some 95, none, none⟩] =
        some (off, [⟨36005, []⟩], [], lapsC', ptsC') ∧ off = gs - cs) ∧
    alignDevices [⟨36005, []⟩] [] [⟨35880, []⟩]
        [⟨35880, some ⟨5000, 1⟩, some 95, none, none⟩] =
      some (125, [⟨36005, []⟩], [], [⟨36005, []⟩],
        [⟨36005, some ⟨5000, 1⟩, some 95, none, none⟩]) := by
  refine ⟨⟨by decide, by decide⟩, ?_, by decide⟩
  obtain ⟨off, gs, cs, lapsC', ptsC', h1, _, _, _, _, _, _, h8, _⟩ :=
    claimC2_offset_and_shift [⟨36005, []⟩] [⟨35880, []⟩] []
      [⟨35880, some ⟨5000, 1⟩, some 95, none, none⟩] (by decide) (by decide)
  exact ⟨off, gs, cs, lapsC', ptsC', h1, h8⟩

/-- **C1** The merge step at line 200 does NOT implement the as-of
(last-observation-carried-forward) join the claim describes: because the call
passes `by="time"` together with `on="time"`, each deviceB row is matched
only against deviceA rows with exactly equal time.  On the claim's own
example (deviceA samples t=0s hr=100 and t=10s hr=110; deviceB shifted
samples t=3s and t=12s) the code yields missing heart rates for both rows,
while the spec's backward as-of join (modelled separately) yields hr=100 and
hr=110. -/
theorem claimC1_asof_divergence :
    line200_merge
        [⟨3, none, none, none, none⟩, ⟨12, none, none, none, none⟩]
        [⟨0, none, some 100, none, none⟩, ⟨10, none, some 110, none, none⟩] =
      [⟨3, none, none, none, none⟩, ⟨12, none, none, none, none⟩] ∧
    asof_join_backward
        [⟨3, none, none, none⟩, ⟨12, none, none, none⟩]
        [⟨0, some 100⟩, ⟨10, some 110⟩] =
      [⟨3, none, none, none, some 100⟩, ⟨12, none, none, none, some 110⟩] ∧
    merge_asof_on_time_by_time
        [⟨10, none, none, none⟩] [⟨0, some 100⟩, ⟨10, some 110⟩] =
      [⟨10, none, none, none, some 110⟩] :=
  ⟨by decide, by decide, by decide⟩

/-- **C6** A trackpoint node without a `ns:Time` direct child makes
extraction fail with the missing-field error (the source dereferences the
`find` result unconditionally); no record is produced. -/
theorem claimC6_missing_time (tp : Element) (h : findChild tp "ns:Time" = none) :
    get_tcx_trackpoint_data tp = Except.error (TcxError.missingField "Time") := by
  have ht : tpTime tp = Except.error (TcxError.missingField "Time") := by
    unfold tpTime
    rw [h]
  unfold get_tcx_trackpoint_data
  simp [Bind.bind, Except.bind, ht]

theorem claimC6_missing_time_witness :
    findChild tpNoTime "ns:Time" = none ∧
    get_tcx_trackpoint_data tpNoTime = Except.error (TcxError.missingField "Time") :=
  ⟨rfl, claimC6_missing_time tpNoTime rfl⟩

/-- **C5** Whenever lap extraction returns a mapping, its keys are exactly
`start_time` followed by precisely the optional fields whose elements are
present on the lap node (in probe order); an absent optional field's key does
not occur in the mapping at all. -/
theorem claimC5_lap_exact_keys (lap : Element) (d : Dict)
    (h : get_tcx_lap_data lap = Except.ok d) :
    dictKeys d = "start_time" :: lapOptionalKeys lap :=
  get_tcx_lap_data_keys h

theorem claimC5_lap_exact_keys_witness :
    get_tcx_lap_data sampleLap =
      Except.ok [("start_time", PyVal.vTime 100), ("distance", PyVal.vFloat ⟨10000, 1⟩)] ∧
    dictKeys [("start_time", PyVal.vTime 100), ("distance", PyVal.vFloat ⟨10000, 1⟩)] =
      "start_time" :: lapOptionalKeys sampleLap :=
  ⟨by decide,
   claimC5_lap_exact_keys sampleLap
     [("start_time", PyVal.vTime 100), ("distance", PyVal.vFloat ⟨10000, 1⟩)] (by decide)⟩

/-- **C7** When the activities container is absent or holds no activity node,
`get_dataframes` fails with the schema error; when activity nodes are
present, the result depends only on the first one — two documents sharing
the same first activity node produce identical output whatever follows it. -/
theorem claimC7_first_activity_only :
    (∀ root, findChild root "ns:Activities" = none →
      get_dataframes root = Except.error TcxError.schemaError) ∧
    (∀ root acts, findChild root "ns:Activities" = some acts → acts.children = [] →
      get_dataframes root = Except.error TcxError.schemaError) ∧
    (∀ r₁ r₂ acts₁ acts₂ a t₁ t₂,
      findChild r₁ "ns:Activities" = some acts₁ →
      findChild r₂ "ns:Activities" = some acts₂ →
      acts₁.children = a :: t₁ → acts₂.children = a :: t₂ →
      get_dataframes r₁ = get_dataframes r₂) := by
  refine ⟨?_, ?_, ?_⟩
  · intro root h
    have hf : firstActivity root = Except.error TcxError.schemaError := by
      unfold firstActivity
      simp only [h]
    unfold get_dataframes
    simp [Bind.bind, Except.bind, hf]
  · intro root acts h1 h2
    have hf : firstActivity root = Except.error TcxError.schemaError := by
      unfold firstActivity
      simp only [h1, h2]
    unfold get_dataframes
    simp [Bind.bind, Except.bind, hf]
  · intro r₁ r₂ acts₁ acts₂ a t₁ t₂ h1 h2 h3 h4
    have hf1 : firstActivity r₁ = Except.ok a := by
      unfold firstActivity
      simp only [h1, h3]
    have hf2 : firstActivity r₂ = Except.ok a := by
      unfold firstActivity
      simp only [h2, h4]
    unfold get_dataframes
    rw [hf1, hf2]

theorem claimC7_first_activity_only_witness :
    get_dataframes rootNoActs = Except.error TcxError.schemaError ∧
    get_dataframes rootEmptyActs = Except.error TcxError.schemaError ∧
    get_dataframes rootTwoActs = get_dataframes rootOneAct :=
  ⟨claimC7_first_activity_only.1 rootNoActs rfl,
   claimC7_first_activity_only.2.1 rootEmptyActs (mkE "ns:Activities" [] none []) rfl rfl,
   claimC7_first_activity_only.2.2 rootTwoActs rootOneAct
     (mkE "ns:Activities" [] none
       [mkE "ns:Activity" [] none [emptyTrackLap], mkE "ns:Activity" [] none [noTrackLap]])
     (mkE "ns:Activities" [] none [mkE "ns:Activity" [] none [emptyTrackLap]])
     (mkE "ns:Activity" [] none [emptyTrackLap]) [mkE "ns:Activity" [] none [noTrackLap]] []
     rfl rfl rfl rfl⟩

/-- **C9** Watt is the only trackpoint field looked up with the recursive
descendant search (`.//ns3:Watts`): given a successful extraction, the `watt`
key is present exactly when a `ns3:Watts` element occurs at any nesting depth
below the trackpoint, while cadence, distance and heart rate keys are present
exactly when their element is a direct child, and the required time element
is a direct child. -/
theorem claimC9_watt_recursive_lookup (tp : Element) (d : Dict)
    (h : get_tcx_trackpoint_data tp = Except.ok d) :
    ("watt" ∈ dictKeys d ↔ (tp.findRec "ns3:Watts").isSome = true) ∧
    ("cadence" ∈ dictKeys d ↔ (findChild tp "ns:Cadence").isSome = true) ∧
    ("distance" ∈ dictKeys d ↔ (findChild tp "ns:DistanceMeters").isSome = true) ∧
    ("heart_rate" ∈ dictKeys d ↔ (findChild tp "ns:HeartRateBpm").isSome = true) ∧
    (findChild tp "ns:Time").isSome = true := by
  obtain ⟨t, d3, ht, hk3, hw⟩ := get_tcx_trackpoint_ok_shape h
  have hk := get_tcx_trackpoint_data_keys h
  refine ⟨?_, ?_, ?_, ?_, tpTime_ok_findChild ht⟩ <;>
    · rw [hk]
      simp [tpOptionalKeys, mem_ite_singleton, List.mem_append]

theorem claimC9_watt_recursive_lookup_witness :
    ("watt" ∈ dictKeys deepDict ↔ (deepTp.findRec "ns3:Watts").isSome = true) ∧
    ("cadence" ∈ dictKeys deepDict ↔ (findChild deepTp "ns:Cadence").isSome = true) ∧
    ("distance" ∈ dictKeys deepDict ↔ (findChild deepTp "ns:DistanceMeters").isSome = true) ∧
    ("heart_rate" ∈ dictKeys deepDict ↔ (findChild deepTp "ns:HeartRateBpm").isSome = true) ∧
    (findChild deepTp "ns:Time").isSome = true :=
  claimC9_watt_recursive_lookup deepTp deepDict (by decide)

/-- **C4** counterexample: a trackpoint whose present `ns3:Watts` element
holds whitespace-only text does not get `watt = 0.0` as the claim states —
extraction fails with a parse error instead, because Python's `" "` is
truthy, so the source evaluates `float(" ")`, which raises. -/
theorem claimC4_watt_default_counterexample :
    wsWattTp.findRec "ns3:Watts" = some wsWatts ∧
    wsWatts.text = some " " ∧
    get_tcx_trackpoint_data wsWattTp = Except.error (TcxError.fieldParse "watt") :=
  ⟨rfl, rfl, by decide⟩

/-- **C4** (amended) A present `ns3:Watts` element whose text is absent or
the empty string yields `watt = 0.0` in any successful extraction (the `or 0`
default); and this defaulting is particular to watt — a present optional
element with falsy text elsewhere (cadence shown) makes extraction fail
rather than default. -/
theorem claimC4_watt_default_amended :
    (∀ tp d w, get_tcx_trackpoint_data tp = Except.ok d →
      tp.findRec "ns3:Watts" = some w → (w.text = none ∨ w.text = some "") →
      List.lookup "watt" d = some (PyVal.vFloat ⟨0, 0⟩)) ∧
    (∀ tp c, findChild tp "ns:Cadence" = some c →
      (c.text = none ∨ c.text = some "") →
      ∃ er, get_tcx_trackpoint_data tp = Except.error er) := by
  constructor
  · intro tp d w h hw htext
    obtain ⟨t, d3, ht, hk3, hws⟩ := get_tcx_trackpoint_ok_shape h
    unfold wattStep at hws
    simp only [hw] at hws
    rw [if_pos htext] at hws
    have hd : d3 ++ [("watt", PyVal.vFloat ⟨0, 0⟩)] = d := Except.ok.inj hws
    have hnw : "watt" ∉ dictKeys d3 := by
      rw [hk3]
      simp [mem_ite_singleton, List.mem_append]
    rw [← hd]
    exact lookup_append_last hnw
  · intro tp c hc htext
    cases ht : tpTime tp with
    | error er =>
      exact ⟨er, by unfold get_tcx_trackpoint_data; simp [Bind.bind, Except.bind, ht]⟩
    | ok t =>
      refine ⟨TcxError.fieldParse "cadence", ?_⟩
      have hof : optFloat [("time", PyVal.vTime t)] tp "ns:Cadence" "cadence" =
          Except.error (TcxError.fieldParse "cadence") := by
        unfold optFloat
        simp only [hc]
        rcases htext with htx | htx <;> rw [htx] <;> rfl
      unfold get_tcx_trackpoint_data
      simp [Bind.bind, Except.bind, ht, hof]

theorem claimC4_watt_default_amended_witness :
    (get_tcx_trackpoint_data emptyWattTp =
        Except.ok [("time", PyVal.vTime 5), ("watt", PyVal.vFloat ⟨0, 0⟩)] ∧
      emptyWattTp.findRec "ns3:Watts" = some emptyWatts ∧
      emptyWatts.text = none ∧
      List.lookup "watt" [("time", PyVal.vTime 5), ("watt", PyVal.vFloat ⟨0, 0⟩)] =
        some (PyVal.vFloat ⟨0, 0⟩)) ∧
    (findChild cadEmptyTp "ns:Cadence" = some emptyCad ∧
      emptyCad.text = some "" ∧
      ∃ er, get_tcx_trackpoint_data cadEmptyTp = Except.error er) := by
  refine ⟨⟨by decide, rfl, rfl, ?_⟩, rfl, rfl, ?_⟩
  · exact claimC4_watt_default_amended.1 emptyWattTp _ emptyWatts (by decide) rfl (Or.inl rfl)
  · exact claimC4_watt_default_amended.2 cadEmptyTp emptyCad rfl (Or.inr rfl)

/-- **C8** For every successfully parsed file, the laps table carries exactly
the seven fixed columns (indexed by `number`) and the trackpoints table
exactly the five fixed columns; a row is built by looking each fixed column
up in the extracted dict, so any key outside the column list — in particular
the per-point `lap` stamp — is silently dropped, and a key absent from a dict
appears as a missing value in its fixed column. -/
theorem claimC8_fixed_columns (root : Element) (lapsDf ptsDf : DataFrame)
    (h : get_dataframes root = Except.ok (lapsDf, ptsDf)) :
    lapsDf.columns = ["start_time", "distance", "calories", "total_time",
      "max_speed", "max_hr", "avg_hr"] ∧
    ptsDf.columns = TRACKPOINT_COLUMN_NAMES ∧
    (∀ (dd : Dict) (v : PyVal),
      dfRow TRACKPOINT_COLUMN_NAMES (dd ++ [("lap", v)]) =
        dfRow TRACKPOINT_COLUMN_NAMES dd) ∧
    (∀ (dd : Dict) (c : String), c ∉ dictKeys dd → List.lookup c dd = none) := by
  unfold get_dataframes at h
  obtain ⟨a, ha, h⟩ := exceptBind_ok.mp h
  obtain ⟨lp, hlp, h⟩ := exceptBind_ok.mp h
  simp only [Except.ok.injEq, Prod.mk.injEq] at h
  obtain ⟨hl, hp⟩ := h
  refine ⟨?_, ?_, fun dd v => dfRow_append_not_col (by decide),
    fun dd c hc => lookup_not_mem hc⟩
  · rw [← hl]; rfl
  · rw [← hp]; rfl

theorem claimC8_fixed_columns_witness :
    get_dataframes sampleRoot = Except.ok (c8LapsDf, c8PtsDf) ∧
    c8LapsDf.columns = ["start_time", "distance", "calories", "total_time",
      "max_speed", "max_hr", "avg_hr"] ∧
    c8PtsDf.columns = TRACKPOINT_COLUMN_NAMES := by
  have h := claimC8_fixed_columns sampleRoot c8LapsDf c8PtsDf (by decide)
  exact ⟨by decide, h.1, h.2.1⟩

/-- **C3** For every run of the lap loop starting at 1, the lap records carry
`number` values that are the contiguous integers 1, 2, … in document order,
and every trackpoint record carries a `lap` value equal to the number of a
lap record present in the same output (its enclosing lap). -/
theorem claimC3_lap_numbers_fk (activityLaps : List Element) (laps pts : List Dict)
    (h : lapsLoop 1 activityLaps = Except.ok (laps, pts)) :
    laps.length = activityLaps.length ∧
    (∀ i (hi : i < laps.length),
       List.lookup "number" (laps.get ⟨i, hi⟩) = some (PyVal.vInt (1 + i))) ∧
    (∀ p ∈ pts, ∃ k : Int, List.lookup "lap" p = some (PyVal.vInt k) ∧
       ∃ j, ∃ hj : j < laps.length,
         List.lookup "number" (laps.get ⟨j, hj⟩) = some (PyVal.vInt k)) := by
  obtain ⟨hlen, hnum, hpts⟩ := lapsLoop_ok_spec h
  refine ⟨hlen, hnum, fun p hp => ?_⟩
  obtain ⟨k, hk, hk1, hk2⟩ := hpts p hp
  refine ⟨k, hk, (k - 1).toNat, by omega, ?_⟩
  have h2 := hnum (k - 1).toNat (by omega)
  have h3 : (1 : Int) + ((k - 1).toNat : Int) = k := by omega
  rwa [h3] at h2

theorem claimC3_lap_numbers_fk_witness :
    c3Laps.length = [sampleLap, emptyTrackLap].length ∧
    (∀ i (hi : i < c3Laps.length),
       List.lookup "number" (c3Laps.get ⟨i, hi⟩) = some (PyVal.vInt (1 + i))) ∧
    (∀ p ∈ c3Pts, ∃ k : Int, List.lookup "lap" p = some (PyVal.vInt k) ∧
       ∃ j, ∃ hj : j < c3Laps.length,
         List.lookup "number" (c3Laps.get ⟨j, hj⟩) = some (PyVal.vInt k)) :=
  claimC3_lap_numbers_fk [sampleLap, emptyTrackLap] c3Laps c3Pts (by decide)

/-- **C10** A lap element without a `ns:Track` child makes processing of the
whole file fail (the source calls `findall` on `None`), whereas a lap with a
present but empty `ns:Track` is kept and contributes zero trackpoint rows. -/
theorem claimC10_track_required :
    (∀ root a lap, firstActivity root = Except.ok a →
      lap ∈ findallChildren a "ns:Lap" → findChild lap "ns:Track" = none →
      ∃ er, get_dataframes root = Except.error er) ∧
    (∀ (n : Int) lap d track, get_tcx_lap_data lap = Except.ok d →
      findChild lap "ns:Track" = some track →
      findallChildren track "ns:Trackpoint" = [] →
      processLap n lap = Except.ok (d ++ [("number", PyVal.vInt n)], [])) := by
  constructor
  · intro root a lap hfa hmem htr
    obtain ⟨er, he⟩ := lapsLoop_mem_error hmem (processLap_noTrack htr) 1
    exact ⟨er, by unfold get_dataframes; simp [Bind.bind, Except.bind, hfa, he]⟩
  · intro n lap d track hld htr hpts
    unfold processLap
    simp [Bind.bind, Except.bind, hld, htr, hpts, collectPoints]

theorem claimC10_track_required_witness :
    (∃ er, get_dataframes rootNoTrack = Except.error er) ∧
    processLap 1 emptyTrackLap =
      Except.ok ([("start_time", PyVal.vTime 200), ("number", PyVal.vInt 1)], []) := by
  constructor
  · exact claimC10_track_required.1 rootNoTrack
      (mkE "ns:Activity" [] none [sampleLap, noTrackLap]) noTrackLap rfl
      (List.mem_cons_of_mem _ (List.mem_cons_self _ _)) rfl
  · exact claimC10_track_required.2 1 emptyTrackLap
      [("start_time", PyVal.vTime 200)] (mkE "ns:Track" [] none [])
      (by decide) rfl rfl
